import Mathlib

/-!
Verification of the config/model translator in
`datadog/resource_datadog_synthetics_test_.go`.

Go strings are byte sequences; we embed them as `List Nat` with every
element below 256.  ASCII literals are written through the helper `gs`.
Effects (`log.Printf`) are embedded as an explicit list of emitted log
lines; a Go `panic` is embedded as an `Option.none` result.
-/

set_option autoImplicit false

/-- Byte-string embedding of a Go `string` (a sequence of bytes). -/
abbrev GoString := List Nat

/-- Literal helper: the bytes of an ASCII Lean string literal. -/
def gs (s : String) : GoString := s.data.map Char.toNat

/-- Well-formedness: every element of the list is a byte. -/
def Bytes (s : GoString) : Prop := ∀ b ∈ s, b < 256

instance : DecidablePred Bytes := fun s =>
  decidable_of_iff (∀ b ∈ s, b < 256) Iff.rfl

/-! ### Base64 (encoding/base64 StdEncoding, as used by the codec) -/

/-- Byte of the standard base64 alphabet character for a 6-bit group. -/
def encChar (n : Nat) : Nat :=
  if n < 26 then 65 + n
  else if n < 52 then 97 + (n - 26)
  else if n < 62 then 48 + (n - 52)
  else if n = 62 then 43
  else 47

/-- Inverse of the standard base64 alphabet; `none` for bytes outside it. -/
def decChar (c : Nat) : Option Nat :=
  if 65 ≤ c ∧ c ≤ 90 then some (c - 65)
  else if 97 ≤ c ∧ c ≤ 122 then some (c - 97 + 26)
  else if 48 ≤ c ∧ c ≤ 57 then some (c - 48 + 52)
  else if c = 43 then some 62
  else if c = 47 then some 63
  else none

/-- Base64-encode a byte list in 3-byte groups, with `'='` (61) padding,
as `b64.StdEncoding.EncodeToString` does. -/
def b64EncodeGroups : GoString → GoString
  | [] => []
  | [a] => [encChar (a / 4), encChar (a % 4 * 16), 61, 61]
  | [a, b] => [encChar (a / 4), encChar (a % 4 * 16 + b / 16), encChar (b % 16 * 4), 61]
  | a :: b :: c :: rest =>
      encChar (a / 4) :: encChar (a % 4 * 16 + b / 16) ::
        encChar (b % 16 * 4 + c / 64) :: encChar (c % 64) :: b64EncodeGroups rest

/-- Result of decoding one 4-character base64 quantum. -/
inductive B64Quantum where
  /-- Three data bytes, no padding. -/
  | full (b1 b2 b3 : Nat)
  /-- Two data bytes, quantum ends with one `'='`. -/
  | two (b1 b2 : Nat)
  /-- One data byte, quantum ends with `"=="`. -/
  | one (b1 : Nat)
  /-- Invalid quantum (bad character or bad padding shape). -/
  | bad
deriving DecidableEq

/-- Decode one 4-character quantum, mirroring Go's `decodeQuantum`. -/
def decQuantum (c1 c2 c3 c4 : Nat) : B64Quantum :=
  match decChar c1, decChar c2 with
  | some d1, some d2 =>
      if c3 = 61 then
        if c4 = 61 then .one (d1 * 4 + d2 / 16) else .bad
      else
        match decChar c3 with
        | some d3 =>
            if c4 = 61 then .two (d1 * 4 + d2 / 16) (d2 % 16 * 16 + d3 / 4)
            else
              match decChar c4 with
              | some d4 => .full (d1 * 4 + d2 / 16) (d2 % 16 * 16 + d3 / 4) (d3 % 4 * 64 + d4)
              | none => .bad
        | none => .bad
  | _, _ => .bad

/-- Embedding of `b64.StdEncoding.DecodeString` with its error DROPPED, as
`decompressAndDecodeValue` does (`decodedValue, _ := DecodeString(value)`):
the bytes decoded before the first invalid or incomplete quantum are kept;
a padded quantum ends the decode (Go errors on trailing data after padding,
and the error is ignored by the caller). -/
def b64DecodeGo : GoString → GoString
  | c1 :: c2 :: c3 :: c4 :: rest =>
      match decQuantum c1 c2 c3 c4 with
      | .full b1 b2 b3 => b1 :: b2 :: b3 :: b64DecodeGo rest
      | .two b1 b2 => [b1, b2]
      | .one b1 => [b1]
      | .bad => []
  | _ => []

/-! ### Zlib layer

The deflate bitstream itself is produced by Go's `compress/zlib`
(external library, not part of this repository's sources).  Modelled from
the spec: "compress the UTF-8 text with a standard deflate-family
compressor" — we model the compressed body as a self-delimiting byte code
(one marker byte per data byte, a terminator marker) wrapped in the real
zlib container: the 2-byte header `0x78 0x9c` and the 4-byte Adler-32
trailer.  The reader model mirrors Go's `zlib.NewReader`/`io.ReadAll`
observable behaviour: a missing or malformed header makes `NewReader`
return a nil reader (the caller then panics); a truncated or corrupt body
yields the partial output read so far together with an error that the
caller drops. -/
def deflateBytes : GoString → GoString
  | [] => [0]
  | b :: rest => 1 :: b :: deflateBytes rest

/-- Adler-32 state fold over the data bytes. -/
def adler32Fold : GoString → Nat × Nat → Nat × Nat
  | [], st => st
  | b :: rest, (a, c) => adler32Fold rest ((a + b) % 65521, (c + (a + b) % 65521) % 65521)

/-- Big-endian 4-byte Adler-32 checksum of the data, as zlib appends. -/
def adler32 (data : GoString) : GoString :=
  let st := adler32Fold data (1, 0)
  [st.2 / 256 % 256, st.2 % 256, st.1 / 256 % 256, st.1 % 256]

/-- Read the modelled deflate body: returns the decompressed bytes, whether
the stream terminated cleanly, and the bytes following the stream. -/
def inflateLoop : GoString → GoString × Bool × GoString
  | [] => ([], false, [])
  | 0 :: rest => ([], true, rest)
  | 1 :: b :: rest =>
      let r := inflateLoop rest
      (b :: r.1, r.2.1, r.2.2)
  | [1] => ([], false, [])
  | _ :: _ => ([], false, [])

/-- Zlib 2-byte header check as `zlib.NewReader` performs it: compression
method 8, window size within range, header checksum divisible by 31, and
no preset-dictionary flag. -/
def zlibHeaderOk (h1 h2 : Nat) : Bool :=
  h1 % 16 = 8 && h1 / 16 ≤ 7 && (h1 * 256 + h2) % 31 = 0 && h2 / 32 % 2 = 0

/-- Embedding of `compressAndEncodeValue`: zlib-compress the value (header
`0x78 0x9c`, modelled deflate body, Adler-32 trailer), then base64-encode. -/
def compressAndEncodeValue (value : GoString) : GoString :=
  b64EncodeGroups (120 :: 156 :: (deflateBytes value ++ adler32 value))

/-- Embedding of `decompressAndDecodeValue`.  Every error is dropped by the
source (`decodedValue, _ := ...`, `zl, _ := zlib.NewReader(...)`,
`compressedProtoFile, _ := io.ReadAll(zl)`): invalid base64 is decoded up
to the first bad quantum, and body errors still return the partial output.
`none` models the panic on the nil reader returned for a bad header. -/
def decompressAndDecodeValue (value : GoString) : Option GoString :=
  match b64DecodeGo value with
  | h1 :: h2 :: rest => if zlibHeaderOk h1 h2 then some (inflateLoop rest).1 else none
  | _ => none

/-- Bool view of "the base64-decoded bytes start with a valid zlib header". -/
def zlibStreamHeaderOk : GoString → Bool
  | h1 :: h2 :: _ => zlibHeaderOk h1 h2
  | _ => false

/-! ### Certificate digests -/

/-- Hexadecimal-digit byte test (the character class of the cert-hash regex). -/
def isHexByte (b : Nat) : Bool :=
  (decide (48 ≤ b) && decide (b ≤ 57)) ||
  (decide (65 ≤ b) && decide (b ≤ 70)) ||
  (decide (97 ≤ b) && decide (b ≤ 102))

/-- Embedding of `isCertHash`: `regexp.MatchString("^[A-Fa-f0-9]{64}$", content)`,
i.e. the whole string is exactly 64 hexadecimal characters. -/
def isCertHash (content : GoString) : Bool :=
  decide (content.length = 64) && content.all isHexByte

/-- Lowercase hex digit byte for a 4-bit value. -/
def hexDigitByte (k : Nat) : Nat := if k < 10 then 48 + k else 87 + k

/-- Modelled from the spec: `utils.ConvertToSha256` lives outside `src/`.
The spec requires only "a fixed-length one-way hash ... a fixed-length
hexadecimal string of a specific length characteristic of a cryptographic
hash"; we model it as a deterministic 256-bit digest rendered as 64
lowercase hex characters (Go renders the sha256 sum with `%x`). -/
def sha256Mix (content : GoString) : Nat :=
  content.foldl (fun acc b => (acc * 65599 + b + 1) % 2 ^ 256) 5381

/-- Modelled from the spec: hex rendering of the modelled 256-bit digest. -/
def convertToSha256 (content : GoString) : GoString :=
  (List.range 64).map (fun i => hexDigitByte (sha256Mix content / 16 ^ (63 - i) % 16))

/-- Embedding of `getCertificateStateValue`: an input that already looks
like a hash is returned unchanged, otherwise it is hashed. -/
def getCertificateStateValue (content : GoString) : GoString :=
  if isCertHash content then content else convertToSha256 content

/-! ### Template interpolation pattern

Embedding of `regexp.MatchString("{{\\s*([^{}]*?)\\s*}}", v)`: the string
contains somewhere an opening `"{{"` (bytes 123 123), then characters none
of which is a brace (`\s*` is subsumed by `[^{}]*`), then `"}}"` (125 125).
Braces are ASCII, so byte-level scanning coincides with Go's rune-level
matching. -/
def innerScan : GoString → Bool
  | [] => false
  | c :: rest =>
      if c = 125 then
        match rest with
        | c2 :: _ => decide (c2 = 125)
        | [] => false
      else if c = 123 then false
      else innerScan rest

/-- Whether the template-interpolation regex matches anywhere in the string. -/
def hasTemplate : GoString → Bool
  | [] => false
  | c :: rest =>
      (if c = 123 then
        match rest with
        | c2 :: rest2 => decide (c2 = 123) && innerScan rest2
        | [] => false
      else false) || hasTemplate rest

/-! ### Numeric parsing (strconv) -/

/-- Consume leading ASCII digits: their value, how many there were, and
the remaining bytes. -/
def takeDigits : GoString → Nat × Nat × GoString
  | [] => (0, 0, [])
  | b :: rest =>
      if 48 ≤ b ∧ b ≤ 57 then
        let r := takeDigits rest
        ((b - 48) * 10 ^ r.2.1 + r.1, r.2.1 + 1, r.2.2)
      else (0, 0, b :: rest)

/-- Consume an optional leading sign; returns (isNegative, rest). -/
def parseSign : GoString → Bool × GoString
  | [] => (false, [])
  | c :: rest =>
      if c = 43 then (false, rest)
      else if c = 45 then (true, rest)
      else (false, c :: rest)

/-- Modelled from the spec/source: `strconv.ParseFloat(v, 64)` acceptance
and value, for plain decimal literals (optional sign, digits with optional
fraction, optional decimal exponent).  The value is kept as an exact
rational — float rounding is immaterial to the claims, which evaluate at
exactly representable values.  `none` is a parse error (`err != nil`). -/
def parseFloat (s : GoString) : Option ℚ :=
  let sgn := parseSign s
  let ip := takeDigits sgn.2
  let fpOpt : Nat × Nat × GoString :=
    match ip.2.2 with
    | 46 :: rest => takeDigits rest
    | _ => (0, 0, ip.2.2)
  if ip.2.1 + fpOpt.2.1 = 0 then none
  else
    let mant : ℚ := (ip.1 : ℚ) + (fpOpt.1 : ℚ) / (10 : ℚ) ^ fpOpt.2.1
    let signed : ℚ := if sgn.1 then -mant else mant
    match fpOpt.2.2 with
    | [] => some signed
    | e :: rest =>
        if e = 101 ∨ e = 69 then
          let esgn := parseSign rest
          let ep := takeDigits esgn.2
          if ep.2.1 = 0 ∨ ep.2.2 ≠ [] then none
          else some (signed * (10 : ℚ) ^ (if esgn.1 then -(ep.1 : ℤ) else (ep.1 : ℤ)))
        else none

/-- Embedding of `strconv.Atoi`: (value, err == nil).  A syntax error
yields value 0; an out-of-int64-range value is clamped, with an error. -/
def atoiGo (s : GoString) : Int × Bool :=
  let sgn := parseSign s
  if sgn.2 = [] then (0, false)
  else
    let d := takeDigits sgn.2
    if d.2.2 ≠ [] then (0, false)
    else
      let v : Int := if sgn.1 then -(d.1 : Int) else (d.1 : Int)
      if v > (2 : Int) ^ 63 - 1 then ((2 : Int) ^ 63 - 1, false)
      else if v < -(2 : Int) ^ 63 then (-(2 : Int) ^ 63, false)
      else (v, true)

/-! ### Basic auth (config → model) -/

/-- Schema-backed `basicauth` configuration map.  Every declared attribute
is present as a string (possibly empty) — the schema supplies defaults, and
the source asserts `.(string)` unconditionally.  `ty` embeds the map key
`"type"`. -/
structure BasicAuthConfig where
  ty : GoString
  username : GoString := []
  password : GoString := []
  accessKey : GoString := []
  secretKey : GoString := []
  region : GoString := []
  serviceName : GoString := []
  sessionToken : GoString := []
  tokenApiAuthentication : GoString := []
  accessTokenUrl : GoString := []
  clientId : GoString := []
  clientSecret : GoString := []
  audience : GoString := []
  resource : GoString := []
  scope : GoString := []
  domain : GoString := []
  workstation : GoString := []
deriving DecidableEq

/-- SDK model `SyntheticsBasicAuthWeb` (required fields). -/
structure SyntheticsBasicAuthWeb where
  password : GoString
  username : GoString
deriving DecidableEq

/-- SDK model `SyntheticsBasicAuthSigv4`. -/
structure SyntheticsBasicAuthSigv4 where
  accessKey : GoString
  secretKey : GoString
  region : Option GoString := none
  serviceName : Option GoString := none
  sessionToken : Option GoString := none
deriving DecidableEq

/-- SDK model `SyntheticsBasicAuthNTLM` (optional fields). -/
structure SyntheticsBasicAuthNTLM where
  username : Option GoString := none
  password : Option GoString := none
  domain : Option GoString := none
  workstation : Option GoString := none
deriving DecidableEq

/-- SDK model `SyntheticsBasicAuthOauthClient`. -/
structure SyntheticsBasicAuthOauthClient where
  accessTokenUrl : GoString
  clientId : GoString
  clientSecret : GoString
  tokenApiAuthentication : GoString
  audience : Option GoString := none
  resource : Option GoString := none
  scope : Option GoString := none
deriving DecidableEq

/-- SDK model `SyntheticsBasicAuthOauthROP`. -/
structure SyntheticsBasicAuthOauthROP where
  accessTokenUrl : GoString
  password : GoString
  tokenApiAuthentication : GoString
  username : GoString
  audience : Option GoString := none
  resource : Option GoString := none
  scope : Option GoString := none
  clientId : Option GoString := none
  clientSecret : Option GoString := none
deriving DecidableEq

/-- SDK model `SyntheticsBasicAuthDigest`. -/
structure SyntheticsBasicAuthDigest where
  password : GoString
  username : GoString
deriving DecidableEq

/-- SDK union `SyntheticsBasicAuth`: one optional pointer per variant;
the `...AsSyntheticsBasicAuth` constructors set exactly one arm. -/
structure SyntheticsBasicAuth where
  web : Option SyntheticsBasicAuthWeb := none
  sigv4 : Option SyntheticsBasicAuthSigv4 := none
  ntlm : Option SyntheticsBasicAuthNTLM := none
  oauthClient : Option SyntheticsBasicAuthOauthClient := none
  oauthROP : Option SyntheticsBasicAuthOauthROP := none
  digest : Option SyntheticsBasicAuthDigest := none
deriving DecidableEq

/-- `NewSyntheticsBasicAuthOauthTokenApiAuthenticationFromValue` succeeds
only on the enum values `"header"` and `"body"`; on error the caller keeps
the zero value (empty string). -/
def tokenApiAuthFromValue (v : GoString) : GoString :=
  if v = gs "header" ∨ v = gs "body" then v else []

/-- Log line for the unrecognized-type fallthrough of `buildDatadogBasicAuth`. -/
def warnUnrecognizedBasicAuth (t : GoString) : GoString :=
  gs "[WARN] unrecognized basic auth type " ++ t

/-- Embedding of `buildDatadogBasicAuth`, with the `log.Printf` effect as an
explicit second component (list of emitted log lines, in order). -/
def buildDatadogBasicAuth (c : BasicAuthConfig) : SyntheticsBasicAuth × List GoString :=
  if c.ty = gs "web" ∧ c.username ≠ [] then
    ({ web := some { password := c.password, username := c.username } }, [])
  else if c.ty = gs "sigv4" ∧ c.accessKey ≠ [] ∧ c.secretKey ≠ [] then
    let v : SyntheticsBasicAuthSigv4 :=
      { accessKey := c.accessKey
        secretKey := c.secretKey
        region := some c.region
        serviceName := some c.serviceName
        sessionToken := some c.sessionToken }
    ({ sigv4 := some v }, [])
  else if c.ty = gs "ntlm" then
    let v : SyntheticsBasicAuthNTLM :=
      { username := some c.username
        password := some c.password
        domain := some c.domain
        workstation := some c.workstation }
    ({ ntlm := some v }, [])
  else if c.ty = gs "oauth-client" then
    let v : SyntheticsBasicAuthOauthClient :=
      { accessTokenUrl := c.accessTokenUrl
        clientId := c.clientId
        clientSecret := c.clientSecret
        tokenApiAuthentication := tokenApiAuthFromValue c.tokenApiAuthentication
        audience := if c.audience ≠ [] then some c.audience else none
        resource := if c.resource ≠ [] then some c.resource else none
        scope := if c.scope ≠ [] then some c.scope else none }
    ({ oauthClient := some v }, [])
  else if c.ty = gs "oauth-rop" then
    let v : SyntheticsBasicAuthOauthROP :=
      { accessTokenUrl := c.accessTokenUrl
        password := c.password
        tokenApiAuthentication := tokenApiAuthFromValue c.tokenApiAuthentication
        username := c.username
        audience := if c.audience ≠ [] then some c.audience else none
        resource := if c.resource ≠ [] then some c.resource else none
        scope := if c.scope ≠ [] then some c.scope else none
        clientId := some c.clientId
        clientSecret := some c.clientSecret }
    ({ oauthROP := some v }, [])
  else if c.ty = gs "digest" then
    ({ digest := some { password := c.password, username := c.username } }, [])
  else
    ({}, [warnUnrecognizedBasicAuth c.ty])

/-- The credential schemes `buildDatadogBasicAuth` recognizes. -/
def knownBasicAuthTypes : List GoString :=
  [gs "web", gs "sigv4", gs "ntlm", gs "oauth-client", gs "oauth-rop", gs "digest"]

/-! ### Step parameter keys -/

/-- Embedding of `getParamsKeysForStepType`: the switch over
`datadogV1.SyntheticsStepType` mapping each step type to its parameter
keys; every unmatched value falls through to the empty list. -/
def getParamsKeysForStepType (stepType : GoString) : List GoString :=
  if stepType = gs "assertCurrentUrl" then [gs "check", gs "value"]
  else if stepType = gs "assertElementAttribute" then [gs "attribute", gs "check", gs "element", gs "value"]
  else if stepType = gs "assertElementContent" then [gs "check", gs "element", gs "value"]
  else if stepType = gs "assertElementPresent" then [gs "element"]
  else if stepType = gs "assertEmail" then [gs "email"]
  else if stepType = gs "assertFileDownload" then [gs "file"]
  else if stepType = gs "assertFromJavascript" then [gs "code", gs "element"]
  else if stepType = gs "assertPageContains" then [gs "value"]
  else if stepType = gs "assertPageLacks" then [gs "value"]
  else if stepType = gs "click" then [gs "click_type", gs "element"]
  else if stepType = gs "extractFromJavascript" then [gs "code", gs "element", gs "variable"]
  else if stepType = gs "extractVariable" then [gs "element", gs "variable"]
  else if stepType = gs "goToEmailLink" then [gs "value"]
  else if stepType = gs "goToUrl" then [gs "value"]
  else if stepType = gs "hover" then [gs "element"]
  else if stepType = gs "playSubTest" then [gs "playing_tab_id", gs "subtest_public_id"]
  else if stepType = gs "pressKey" then [gs "modifiers", gs "value"]
  else if stepType = gs "refresh" then []
  else if stepType = gs "runApiTest" then [gs "request"]
  else if stepType = gs "scroll" then [gs "element", gs "x", gs "y"]
  else if stepType = gs "selectOption" then [gs "element", gs "value"]
  else if stepType = gs "typeText" then [gs "delay", gs "element", gs "value"]
  else if stepType = gs "uploadFiles" then [gs "element", gs "files", gs "with_click"]
  else if stepType = gs "wait" then [gs "value"]
  else []

/-- Log lines emitted by `getParamsKeysForStepType`: the source contains no
log call at all, so no input — known or unknown — produces a warning. -/
def getParamsKeysForStepTypeLog (_stepType : GoString) : List GoString := []

/-- The step types the switch in `getParamsKeysForStepType` recognizes. -/
def knownStepTypes : List GoString :=
  [gs "assertCurrentUrl", gs "assertElementAttribute", gs "assertElementContent",
   gs "assertElementPresent", gs "assertEmail", gs "assertFileDownload",
   gs "assertFromJavascript", gs "assertPageContains", gs "assertPageLacks",
   gs "click", gs "extractFromJavascript", gs "extractVariable",
   gs "goToEmailLink", gs "goToUrl", gs "hover", gs "playSubTest",
   gs "pressKey", gs "refresh", gs "runApiTest", gs "scroll",
   gs "selectOption", gs "typeText", gs "uploadFiles", gs "wait"]

/-! ### Assertions (config → model) -/

/-- Value stored in an SDK `interface{}`-typed target slot. -/
inductive TargetValue where
  /-- A string value, passed through verbatim. -/
  | str (s : GoString)
  /-- An `int` from `strconv.Atoi`. -/
  | int (n : Int)
  /-- A `float64` from `strconv.ParseFloat`, kept exact as a rational. -/
  | float (q : ℚ)
deriving DecidableEq

/-- SDK model `SyntheticsAssertionJavascript` (type is fixed to `javascript`). -/
structure SyntheticsAssertionJavascript where
  code : Option GoString := none
deriving DecidableEq

/-- SDK model `SyntheticsAssertionJSONSchemaTargetTarget`. -/
structure JsonSchemaSubTarget where
  jsonSchema : Option GoString := none
  metaSchema : Option GoString := none
deriving DecidableEq

/-- SDK model `SyntheticsAssertionJSONSchemaTarget`.  `ty` embeds `Type`. -/
structure SyntheticsAssertionJSONSchemaTarget where
  operator : GoString
  ty : GoString
  target : Option JsonSchemaSubTarget := none
deriving DecidableEq

/-- SDK model `SyntheticsAssertionJSONPathTargetTarget`. -/
structure JsonPathSubTarget where
  jsonPath : Option GoString := none
  operator : Option GoString := none
  targetValue : Option TargetValue := none
  elementsOperator : Option GoString := none
deriving DecidableEq

/-- SDK model `SyntheticsAssertionJSONPathTarget`. -/
structure SyntheticsAssertionJSONPathTarget where
  operator : GoString
  ty : GoString
  property : Option GoString := none
  target : Option JsonPathSubTarget := none
deriving DecidableEq

/-- SDK model `SyntheticsAssertionXPathTargetTarget`. -/
structure XPathSubTarget where
  xpath : Option GoString := none
  operator : Option GoString := none
  targetValue : Option TargetValue := none
deriving DecidableEq

/-- SDK model `SyntheticsAssertionXPathTarget`. -/
structure SyntheticsAssertionXPathTarget where
  operator : GoString
  ty : GoString
  property : Option GoString := none
  target : Option XPathSubTarget := none
deriving DecidableEq

/-- SDK model `SyntheticsAssertionTarget` (the plain assertion variant). -/
structure SyntheticsAssertionTarget where
  operator : GoString
  ty : GoString
  property : Option GoString := none
  target : Option TargetValue := none
  timingsScope : Option GoString := none
deriving DecidableEq

/-- SDK union `SyntheticsAssertion`: one optional pointer per variant; the
`...AsSyntheticsAssertion` constructors set exactly one arm. -/
structure SyntheticsAssertion where
  target : Option SyntheticsAssertionTarget := none
  jsonSchemaTarget : Option SyntheticsAssertionJSONSchemaTarget := none
  jsonPathTarget : Option SyntheticsAssertionJSONPathTarget := none
  xPathTarget : Option SyntheticsAssertionXPathTarget := none
  javascript : Option SyntheticsAssertionJavascript := none
deriving DecidableEq

/-- Nested `targetjsonschema` block of the assertion schema. -/
structure JsonSchemaTargetConfig where
  jsonschema : Option GoString := none
  metaschema : Option GoString := none
deriving DecidableEq

/-- Nested `targetjsonpath` block.  `operator` is `Required` in the schema
and always present in the map; the source reads it with a bare
`operator.(string)` assertion in the `targetvalue` switch, which would
panic were it absent. -/
structure JsonPathTargetConfig where
  jsonpath : Option GoString := none
  operator : GoString
  targetvalue : Option GoString := none
  elementsoperator : Option GoString := none
deriving DecidableEq

/-- Nested `targetxpath` block (`operator` required, as above). -/
structure XPathTargetConfig where
  xpath : Option GoString := none
  operator : GoString
  targetvalue : Option GoString := none
deriving DecidableEq

/-- One `assertion` block of the configuration.  `ty` embeds the required
`type` attribute; the remaining attributes are presence-optional, matching
the `if v, ok := assertionMap[...]` reads of the source. -/
structure AssertionConfig where
  ty : GoString
  operator : Option GoString := none
  property : Option GoString := none
  target : Option GoString := none
  code : Option GoString := none
  targetjsonschema : List JsonSchemaTargetConfig := []
  targetjsonpath : List JsonPathTargetConfig := []
  targetxpath : List XPathTargetConfig := []
  timingsScope : Option GoString := none
deriving DecidableEq

/-- Embedding of `isTargetOfTypeInt`: the explicit (type, operator) table
that forces integer target typing. -/
def isTargetOfTypeInt (assertionType assertionOperator : GoString) : Bool :=
  (decide (assertionType = gs "responseTime") ||
   decide (assertionType = gs "certificate") ||
   decide (assertionType = gs "latency") ||
   decide (assertionType = gs "packetsReceived") ||
   decide (assertionType = gs "networkHop") ||
   decide (assertionType = gs "grpcHealthcheckStatus")) ||
  (decide (assertionType = gs "statusCode") &&
   (decide (assertionOperator = gs "is") || decide (assertionOperator = gs "isNot")))

/-- `NewSyntheticsAssertionJSONSchemaMetaSchemaFromValue` succeeds only on
the enum values of the meta-schema type. -/
def metaSchemaFromValueOk (v : GoString) : Bool :=
  decide (v = gs "draft-07") || decide (v = gs "draft-04")

/-- Shared `targetvalue` handling of the `lessThan`/`moreThan` cases: a
template-matching value is passed through as a string; otherwise the value
is set only if `strconv.ParseFloat` succeeds. -/
def numericTargetValue (v : GoString) : Option TargetValue :=
  if hasTemplate v then some (.str v)
  else (parseFloat v).map TargetValue.float

/-- The `targetvalue` switch of the `validatesJSONPath` branch. -/
def jsonPathTargetValue (op v : GoString) : Option TargetValue :=
  if op = gs "isUndefined" then none
  else if op = gs "lessThan" ∨ op = gs "moreThan" then numericTargetValue v
  else some (.str v)

/-- The `targetvalue` switch of the `validatesXPath` branch (it has no
`isUndefined` case: that operator falls to the default string arm). -/
def xPathTargetValue (op v : GoString) : Option TargetValue :=
  if op = gs "lessThan" ∨ op = gs "moreThan" then numericTargetValue v
  else some (.str v)

/-- The `target` handling of the plain-assertion branch: int-typed pairs go
through `strconv.Atoi` with the error IGNORED (`assertionTargetInt, _ :=`),
packet-loss-percentage goes through `ParseFloat` with the error ignored,
and everything else is the verbatim string. -/
def plainTargetValue (ty op v : GoString) : TargetValue :=
  if isTargetOfTypeInt ty op then .int (atoiGo v).1
  else if ty = gs "packetLossPercentage" then .float ((parseFloat v).getD 0)
  else .str v

/-- Presence-and-nonempty check `ok && len(v) > 0` on an optional value. -/
def optNonEmpty (o : Option GoString) : Option GoString :=
  match o with
  | some v => if v ≠ [] then some v else none
  | none => none

/-- Sub-target construction of the `validatesJSONSchema` branch. -/
def buildJsonSchemaSubTarget (t : JsonSchemaTargetConfig) : JsonSchemaSubTarget :=
  { jsonSchema := t.jsonschema
    metaSchema := match t.metaschema with
      | some v => if metaSchemaFromValueOk v then some v else none
      | none => none }

/-- Sub-target construction of the `validatesJSONPath` branch. -/
def buildJsonPathSubTarget (t : JsonPathTargetConfig) : JsonPathSubTarget :=
  { jsonPath := t.jsonpath
    operator := some t.operator
    targetValue := match t.targetvalue with
      | some v => jsonPathTargetValue t.operator v
      | none => none
    elementsOperator := t.elementsoperator }

/-- Sub-target construction of the `validatesXPath` branch. -/
def buildXPathSubTarget (t : XPathTargetConfig) : XPathSubTarget :=
  { xpath := t.xpath
    operator := some t.operator
    targetValue := match t.targetvalue with
      | some v => xPathTargetValue t.operator v
      | none => none }

/-- Loop body of `buildDatadogAssertions` for one assertion map: `none`
means no assertion is appended (a non-javascript map without `operator`). -/
def buildDatadogAssertionsOne (m : AssertionConfig) : Option SyntheticsAssertion :=
  if m.ty = gs "javascript" then
    some { javascript := some { code := m.code } }
  else
    match m.operator with
    | none => none
    | some op =>
        if op = gs "validatesJSONSchema" then
          let t : SyntheticsAssertionJSONSchemaTarget :=
            { operator := op
              ty := m.ty
              target := match m.targetjsonschema with
                | tc :: _ => some (buildJsonSchemaSubTarget tc)
                | [] => none }
          some { jsonSchemaTarget := some t }
        else if op = gs "validatesJSONPath" then
          let t : SyntheticsAssertionJSONPathTarget :=
            { operator := op
              ty := m.ty
              property := optNonEmpty m.property
              target := match m.targetjsonpath with
                | tc :: _ => some (buildJsonPathSubTarget tc)
                | [] => none }
          some { jsonPathTarget := some t }
        else if op = gs "validatesXPath" then
          let t : SyntheticsAssertionXPathTarget :=
            { operator := op
              ty := m.ty
              property := optNonEmpty m.property
              target := match m.targetxpath with
                | tc :: _ => some (buildXPathSubTarget tc)
                | [] => none }
          some { xPathTarget := some t }
        else
          let t : SyntheticsAssertionTarget :=
            { operator := op
              ty := m.ty
              property := optNonEmpty m.property
              target := m.target.map (plainTargetValue m.ty op)
              timingsScope := optNonEmpty m.timingsScope }
          some { target := some t }

/-- Embedding of `buildDatadogAssertions`: maps the loop body over the
assertion blocks, appending only the built assertions. -/
def buildDatadogAssertions (attr : List AssertionConfig) : List SyntheticsAssertion :=
  attr.filterMap buildDatadogAssertionsOne

/-! ### Certificates (build and flatten) -/

/-- One `cert`/`key` block of the `request_client_certificate` map; the
schema supplies `content` and `filename` as strings. -/
structure CertConfigItem where
  content : GoString := []
  filename : GoString := []
deriving DecidableEq

/-- The `request_client_certificate` configuration map: `cert` and `key`
are single-element lists in the schema; the source indexes `[0]`
unconditionally (panic — `none` — on an empty list). -/
structure ClientCertConfig where
  cert : List CertConfigItem := []
  key : List CertConfigItem := []
deriving DecidableEq

/-- SDK model `SyntheticsTestRequestCertificateItem`. -/
structure SyntheticsTestRequestCertificateItem where
  content : Option GoString := none
  filename : Option GoString := none
deriving DecidableEq

/-- SDK model `SyntheticsTestRequestCertificate`. -/
structure SyntheticsTestRequestCertificate where
  cert : Option SyntheticsTestRequestCertificateItem := none
  key : Option SyntheticsTestRequestCertificateItem := none
deriving DecidableEq

/-- Content/filename mapping of one certificate item in
`buildDatadogRequestCertificates`: content is submitted only when
non-empty and not already digest-shaped. -/
def buildCertItem (c : CertConfigItem) : SyntheticsTestRequestCertificateItem :=
  { content := if c.content ≠ [] ∧ isCertHash c.content = false then some c.content else none
    filename := if c.filename ≠ [] then some c.filename else none }

/-- Embedding of `buildDatadogRequestCertificates`; `none` models the panic
on `clientCerts[0]`/`clientKeys[0]` when a list is empty. -/
def buildDatadogRequestCertificates (cfg : ClientCertConfig) :
    Option SyntheticsTestRequestCertificate :=
  match cfg.cert, cfg.key with
  | c :: _, k :: _ => some { cert := some (buildCertItem c), key := some (buildCertItem k) }
  | _, _ => none

/-- Prior-state `cert`/`key` entry as read back by the flattener (the
`content` type assertion uses comma-ok, hence `Option`). -/
structure OldCertItem where
  content : Option GoString := none
deriving DecidableEq

/-- Prior-state `client_certificate` entry: nested single-element `cert`
and `key` lists (indexed `[0]` without a guard — panic when empty). -/
structure OldClientCert where
  cert : List OldCertItem := []
  key : List OldCertItem := []
deriving DecidableEq

/-- Flattened `client_certificate` map produced by
`buildTerraformRequestCertificates`: filenames always set, contents only
from the carried-forward prior state. -/
structure LocalCertificate where
  certFilename : GoString
  certContent : Option GoString := none
  keyFilename : GoString
  keyContent : Option GoString := none
deriving DecidableEq

/-- Embedding of `buildTerraformRequestCertificates`: filenames come from
the model (`GetFilename`, zero value when unset); the write-only contents
come from the previous configuration entry, hashed by
`getCertificateStateValue` — never from the model.  `none` models the
panic on `old[0]...["cert"][0]` when the nested list is empty. -/
def buildTerraformRequestCertificates (clientCertificate : SyntheticsTestRequestCertificate)
    (oldClientCertificates : List OldClientCert) : Option LocalCertificate :=
  let certFn := ((clientCertificate.cert.getD {}).filename).getD []
  let keyFn := ((clientCertificate.key.getD {}).filename).getD []
  match oldClientCertificates with
  | [] => some { certFilename := certFn, keyFilename := keyFn }
  | o :: _ =>
      match o.cert, o.key with
      | oc :: _, ok2 :: _ =>
          some { certFilename := certFn
                 certContent := oc.content.map getCertificateStateValue
                 keyFilename := keyFn
                 keyContent := ok2.content.map getCertificateStateValue }
      | _, _ => none

/-! ### Config variables (flatten) -/

/-- SDK model `SyntheticsConfigVariable` (`Type` and `Name` required;
`Secure`, `Example`, `Pattern`, `Id` optional). -/
structure SyntheticsConfigVariable where
  ty : GoString
  name : GoString
  secure : Option Bool := none
  exampleV : Option GoString := none
  pattern : Option GoString := none
  id : Option GoString := none
deriving DecidableEq

/-- Prior-state `config_variable` entry (`example`/`pattern` read with
unguarded `.(string)` assertions; the schema guarantees strings).
`exampleV` embeds the map key `example` (a Lean keyword). -/
structure OldConfigVariable where
  exampleV : GoString := []
  pattern : GoString := []
deriving DecidableEq

/-- Flattened `config_variable` map. -/
structure LocalConfigVariable where
  ty : Option GoString := none
  name : Option GoString := none
  secure : Option Bool := none
  exampleV : Option GoString := none
  pattern : Option GoString := none
  id : Option GoString := none
deriving DecidableEq

/-- Loop body of `buildTerraformConfigVariables` for one variable: the
secure non-global arm reads `oldConfigVariables[i]` (panic — `none` — when
the index is out of range). -/
def flattenOneConfigVariable (v : SyntheticsConfigVariable)
    (oldAt : Option OldConfigVariable) : Option LocalConfigVariable :=
  let base : LocalConfigVariable :=
    { ty := some v.ty, name := some v.name, secure := v.secure, id := v.id }
  if v.ty ≠ gs "global" then
    if v.secure = some true then
      match oldAt with
      | some o => some { base with exampleV := some o.exampleV, pattern := some o.pattern }
      | none => none
    else
      some { base with exampleV := v.exampleV, pattern := v.pattern }
  else
    some base

/-- Embedding of `buildTerraformConfigVariables`: index-aligned walk over
the model variables with the prior configuration entries. -/
def buildTerraformConfigVariables : List SyntheticsConfigVariable →
    List OldConfigVariable → Option (List LocalConfigVariable)
  | [], _ => some []
  | v :: vs, old =>
      match flattenOneConfigVariable v old.head? with
      | none => none
      | some lv =>
          match buildTerraformConfigVariables vs old.tail with
          | none => none
          | some rest => some (lv :: rest)

/-! ### Body files (flatten) -/

/-- SDK model `SyntheticsTestRequestBodyFile` (all fields optional). -/
structure SyntheticsTestRequestBodyFile where
  name : Option GoString := none
  originalFileName : Option GoString := none
  ty : Option GoString := none
  size : Option Int := none
  bucketKey : Option GoString := none
deriving DecidableEq

/-- Prior-state body-file map: the flattener keeps its `content` and
overwrites the metadata fields. -/
structure LocalBodyFile where
  content : GoString := []
  name : GoString := []
  originalFileName : GoString := []
  ty : GoString := []
  size : Int := 0
  bucketKey : Option GoString := none
deriving DecidableEq

/-- Metadata overwrite of one body file onto the carried-forward prior
entry (`localFile := oldLocalBodyFiles[i]`, then the `Get...` setters). -/
def flattenOneBodyFile (old : LocalBodyFile) (f : SyntheticsTestRequestBodyFile) :
    LocalBodyFile :=
  { old with
    name := f.name.getD []
    originalFileName := f.originalFileName.getD []
    ty := f.ty.getD []
    size := f.size.getD 0
    bucketKey := match f.bucketKey with | some k => some k | none => old.bucketKey }

/-- Embedding of `buildTerraformBodyFiles`: the file content is kept from
the prior state entry at the same index; `none` models the index
out-of-range panic when the model list is longer than the prior list. -/
def buildTerraformBodyFiles : List SyntheticsTestRequestBodyFile →
    List LocalBodyFile → Option (List LocalBodyFile)
  | [], _ => some []
  | _ :: _, [] => none
  | f :: fs, o :: os =>
      match buildTerraformBodyFiles fs os with
      | none => none
      | some rest => some (flattenOneBodyFile o f :: rest)

/-! ### Variant tags -/

/-- Tags of the `SyntheticsBasicAuth` union arms. -/
inductive AuthVariant where
  | web | sigv4 | ntlm | oauthClient | oauthROP | digest
deriving DecidableEq

/-- The union arm selected by a basic-auth `type` discriminator value. -/
def authVariantFor (t : GoString) : Option AuthVariant :=
  if t = gs "web" then some .web
  else if t = gs "sigv4" then some .sigv4
  else if t = gs "ntlm" then some .ntlm
  else if t = gs "oauth-client" then some .oauthClient
  else if t = gs "oauth-rop" then some .oauthROP
  else if t = gs "digest" then some .digest
  else none

/-- Every arm of the union other than the given one is nil; with no
selected arm, every arm is nil. -/
def authSiblingsNone (a : SyntheticsBasicAuth) : Option AuthVariant → Bool
  | some .web => a.sigv4.isNone && a.ntlm.isNone && a.oauthClient.isNone &&
      a.oauthROP.isNone && a.digest.isNone
  | some .sigv4 => a.web.isNone && a.ntlm.isNone && a.oauthClient.isNone &&
      a.oauthROP.isNone && a.digest.isNone
  | some .ntlm => a.web.isNone && a.sigv4.isNone && a.oauthClient.isNone &&
      a.oauthROP.isNone && a.digest.isNone
  | some .oauthClient => a.web.isNone && a.sigv4.isNone && a.ntlm.isNone &&
      a.oauthROP.isNone && a.digest.isNone
  | some .oauthROP => a.web.isNone && a.sigv4.isNone && a.ntlm.isNone &&
      a.oauthClient.isNone && a.digest.isNone
  | some .digest => a.web.isNone && a.sigv4.isNone && a.ntlm.isNone &&
      a.oauthClient.isNone && a.oauthROP.isNone
  | none => a.web.isNone && a.sigv4.isNone && a.ntlm.isNone &&
      a.oauthClient.isNone && a.oauthROP.isNone && a.digest.isNone

/-- Tags of the `SyntheticsAssertion` union arms. -/
inductive AssertionVariant where
  | target | jsonSchema | jsonPath | xpath | javascript
deriving DecidableEq

/-- Exactly the given arm of the assertion union is populated and every
sibling arm is nil. -/
def exactlyVariant (a : SyntheticsAssertion) : AssertionVariant → Bool
  | .target => a.target.isSome && a.jsonSchemaTarget.isNone && a.jsonPathTarget.isNone &&
      a.xPathTarget.isNone && a.javascript.isNone
  | .jsonSchema => a.target.isNone && a.jsonSchemaTarget.isSome && a.jsonPathTarget.isNone &&
      a.xPathTarget.isNone && a.javascript.isNone
  | .jsonPath => a.target.isNone && a.jsonSchemaTarget.isNone && a.jsonPathTarget.isSome &&
      a.xPathTarget.isNone && a.javascript.isNone
  | .xpath => a.target.isNone && a.jsonSchemaTarget.isNone && a.jsonPathTarget.isNone &&
      a.xPathTarget.isSome && a.javascript.isNone
  | .javascript => a.target.isNone && a.jsonSchemaTarget.isNone && a.jsonPathTarget.isNone &&
      a.xPathTarget.isNone && a.javascript.isSome

/-- The assertion variant selected by the discriminators, in the priority
order of the source's if/else chain (type `javascript` first, then the
three special operators, then the plain target). -/
def assertionVariantFor (m : AssertionConfig) : AssertionVariant :=
  if m.ty = gs "javascript" then .javascript
  else
    match m.operator with
    | some op =>
        if op = gs "validatesJSONSchema" then .jsonSchema
        else if op = gs "validatesJSONPath" then .jsonPath
        else if op = gs "validatesXPath" then .xpath
        else .target
    | none => .target

/-- Content of the built certificate item of `buildDatadogRequestCertificates`
(`some (...)` when the build did not panic). -/
def builtCertContent (cfg : ClientCertConfig) : Option (Option GoString) :=
  (buildDatadogRequestCertificates cfg).map (fun r => (r.cert.getD {}).content)

/-- Content of the built key item of `buildDatadogRequestCertificates`. -/
def builtKeyContent (cfg : ClientCertConfig) : Option (Option GoString) :=
  (buildDatadogRequestCertificates cfg).map (fun r => (r.key.getD {}).content)

/-! ### Theorems -/

theorem decChar_encChar_all : ∀ n < 64, decChar (encChar n) = some n := by decide

theorem encChar_ne_pad_all : ∀ n < 64, encChar n ≠ 61 := by decide

theorem decChar_encChar {n : Nat} (h : n < 64) : decChar (encChar n) = some n :=
  decChar_encChar_all n h

theorem encChar_ne_pad {n : Nat} (h : n < 64) : encChar n ≠ 61 :=
  encChar_ne_pad_all n h

/-- Round trip of the base64 layer on arbitrary byte lists. -/
theorem b64DecodeGo_encodeGroups : ∀ (t : GoString), Bytes t → b64DecodeGo (b64EncodeGroups t) = t
  | [], _ => rfl
  | [a], h => by
      have ha : a < 256 := h a (by simp)
      have h1 : a / 4 < 64 := by omega
      have h2 : a % 4 * 16 < 64 := by omega
      simp only [b64EncodeGroups, b64DecodeGo, decQuantum,
        decChar_encChar h1, decChar_encChar h2]
      simp
      omega
  | [a, b], h => by
      have ha : a < 256 := h a (by simp)
      have hb : b < 256 := h b (by simp)
      have h1 : a / 4 < 64 := by omega
      have h2 : a % 4 * 16 + b / 16 < 64 := by omega
      have h3 : b % 16 * 4 < 64 := by omega
      simp only [b64EncodeGroups, b64DecodeGo, decQuantum,
        decChar_encChar h1, decChar_encChar h2, decChar_encChar h3,
        if_neg (encChar_ne_pad h3)]
      simp
      omega
  | a :: b :: c :: d :: rest, h => by
      have ha : a < 256 := h a (by simp)
      have hb : b < 256 := h b (by simp)
      have hc : c < 256 := h c (by simp)
      have ih := b64DecodeGo_encodeGroups (d :: rest) (fun x hx => h x (by simp [hx]))
      have h1 : a / 4 < 64 := by omega
      have h2 : a % 4 * 16 + b / 16 < 64 := by omega
      have h3 : b % 16 * 4 + c / 64 < 64 := by omega
      have h4 : c % 64 < 64 := by omega
      simp only [b64EncodeGroups, b64DecodeGo, decQuantum,
        decChar_encChar h1, decChar_encChar h2, decChar_encChar h3, decChar_encChar h4,
        if_neg (encChar_ne_pad h3), if_neg (encChar_ne_pad h4)]
      simp [ih]
      omega
  | [a, b, c], h => by
      have ha : a < 256 := h a (by simp)
      have hb : b < 256 := h b (by simp)
      have hc : c < 256 := h c (by simp)
      have h1 : a / 4 < 64 := by omega
      have h2 : a % 4 * 16 + b / 16 < 64 := by omega
      have h3 : b % 16 * 4 + c / 64 < 64 := by omega
      have h4 : c % 64 < 64 := by omega
      simp only [b64EncodeGroups, b64DecodeGo, decQuantum,
        decChar_encChar h1, decChar_encChar h2, decChar_encChar h3, decChar_encChar h4,
        if_neg (encChar_ne_pad h3), if_neg (encChar_ne_pad h4)]
      simp
      omega

theorem inflateLoop_deflateBytes (t extra : GoString) :
    inflateLoop (deflateBytes t ++ extra) = (t, true, extra) := by
  induction t with
  | nil => simp [deflateBytes, inflateLoop]
  | cons b rest ih => simp [deflateBytes, inflateLoop, ih]

theorem bytes_deflateBytes {t : GoString} (h : Bytes t) : Bytes (deflateBytes t) := by
  induction t with
  | nil => intro b hb; simp [deflateBytes] at hb; omega
  | cons x rest ih =>
      intro b hb
      simp [deflateBytes] at hb
      rcases hb with h1 | h2 | h3
      · omega
      · have := h x (by simp); omega
      · exact ih (fun y hy => h y (by simp [hy])) b h3

theorem bytes_adler32 (t : GoString) : Bytes (adler32 t) := by
  intro b hb
  simp [adler32] at hb
  rcases hb with h | h | h | h <;> omega

theorem bytes_compressed {t : GoString} (h : Bytes t) :
    Bytes (120 :: 156 :: (deflateBytes t ++ adler32 t)) := by
  intro b hb
  simp at hb
  rcases hb with h1 | h1 | h1 | h1
  · omega
  · omega
  · exact bytes_deflateBytes h b h1
  · exact bytes_adler32 t b h1

theorem isCertHash_convertToSha256 (c : GoString) :
    isCertHash (convertToSha256 c) = true := by
  simp only [isCertHash, convertToSha256, Bool.and_eq_true, decide_eq_true_eq,
    List.all_eq_true, List.length_map, List.length_range]
  refine ⟨trivial, ?_⟩
  intro b hb
  simp only [List.mem_map, List.mem_range] at hb
  obtain ⟨i, _, hi⟩ := hb
  have hk : sha256Mix c / 16 ^ (63 - i) % 16 < 16 := Nat.mod_lt _ (by norm_num)
  subst hi
  simp only [isHexByte, hexDigitByte]
  split <;> simp <;> omega

/-- C3: Binary codec round-trip — for every byte string T (hence every
UTF-8 string, the empty string included),
`decompressAndDecodeValue (compressAndEncodeValue T) = T`: zlib-compress
then base64-encode and their inverses are mutually inverse on all
self-produced inputs. -/
theorem codec_roundtrip (t : GoString) (h : Bytes t) :
    decompressAndDecodeValue (compressAndEncodeValue t) = some t := by
  unfold compressAndEncodeValue decompressAndDecodeValue
  rw [b64DecodeGo_encodeGroups _ (bytes_compressed h)]
  have hz : zlibHeaderOk 120 156 = true := by decide
  simp [hz, inflateLoop_deflateBytes]

/-- Witness for C3 at the concrete input `"abc"` (and implicitly `""`,
which `Bytes` also covers). -/
theorem codec_roundtrip_witness :
    Bytes (gs "abc") ∧
    decompressAndDecodeValue (compressAndEncodeValue (gs "abc")) = some (gs "abc") :=
  ⟨by decide, codec_roundtrip (gs "abc") (by decide)⟩

/-- C4 counterexample: the claim says every input that does not decompress
cleanly propagates a fatal translation error rather than silently
returning partial or empty data.  The input `"eJwBaA=="` is valid base64
of a truncated zlib stream (header plus one literal byte, no terminator,
no checksum): the stream does not end cleanly, yet the function silently
returns the partial text `"h"` — no error, no panic. -/
theorem codec_failure_counterexample :
    decompressAndDecodeValue (gs "eJwBaA==") = some (gs "h") ∧
    (inflateLoop [1, 104]).2.1 = false ∧
    decompressAndDecodeValue (gs "eJwBaA==") ≠ none ∧
    decompressAndDecodeValue (gs "eJwBaA==") ≠ some [] := by decide

/-- C4 (amended): `decompressAndDecodeValue` never propagates an error
value: base64 errors are dropped (the valid prefix is kept) and body
errors after a valid 2-byte zlib header are dropped (the partial, possibly
empty, output is returned).  The only failure it can surface is the panic
on the nil reader — it aborts exactly when the decoded bytes do not start
with a valid zlib header. -/
theorem codec_failure_amended (s : GoString) :
    (decompressAndDecodeValue s).isSome = zlibStreamHeaderOk (b64DecodeGo s) := by
  unfold decompressAndDecodeValue zlibStreamHeaderOk
  generalize b64DecodeGo s = bs
  match bs with
  | [] => rfl
  | [h1] => rfl
  | h1 :: h2 :: rest =>
      by_cases h : zlibHeaderOk h1 h2 = true
      · simp [h]
      · simp [h]

/-- Witness for C4 (amended) at concrete inputs: a good header (input
produced by the encoder) and a garbage input with no usable header. -/
theorem codec_failure_amended_witness :
    (decompressAndDecodeValue (gs "eJwBaA==")).isSome =
      zlibStreamHeaderOk (b64DecodeGo (gs "eJwBaA==")) ∧
    (decompressAndDecodeValue (gs "!!!")).isSome =
      zlibStreamHeaderOk (b64DecodeGo (gs "!!!")) :=
  ⟨codec_failure_amended (gs "eJwBaA=="), codec_failure_amended (gs "!!!")⟩

/-- C5: Digest stability / idempotence — `getCertificateStateValue` is a
function (same plaintext, same digest), applying it twice equals applying
it once, and an input that is already digest-shaped (64 hexadecimal
characters) is returned unchanged, never re-hashed. -/
theorem digest_stability (c : GoString) :
    getCertificateStateValue (getCertificateStateValue c) = getCertificateStateValue c ∧
    (isCertHash c = true → getCertificateStateValue c = c) := by
  constructor
  · unfold getCertificateStateValue
    by_cases h : isCertHash c = true
    · simp [h]
    · simp [h, isCertHash_convertToSha256]
  · intro h
    unfold getCertificateStateValue
    simp [h]

/-- Witness for C5: idempotence at the plaintext `"secret"`, and the
already-digest-shaped 64-character hex input returned unchanged. -/
theorem digest_stability_witness :
    getCertificateStateValue (getCertificateStateValue (gs "secret")) =
      getCertificateStateValue (gs "secret") ∧
    getCertificateStateValue
        (gs "0123456789abcdef0123456789abcdef0123456789abcdef0123456789abcdef") =
      gs "0123456789abcdef0123456789abcdef0123456789abcdef0123456789abcdef" :=
  ⟨(digest_stability (gs "secret")).1,
   (digest_stability
      (gs "0123456789abcdef0123456789abcdef0123456789abcdef0123456789abcdef")).2
     (by decide)⟩

/-- C8 counterexample: the claim says an unknown step type yields the
empty parameter key set AND exactly one warning.  For the unknown step
type `"newVendorStep"` the key set is empty as claimed, but the source
contains no log call in `getParamsKeysForStepType`, so zero warnings are
emitted, not exactly one. -/
theorem unknown_discriminator_counterexample :
    getParamsKeysForStepType (gs "newVendorStep") = [] ∧
    getParamsKeysForStepTypeLog (gs "newVendorStep") = [] ∧
    (getParamsKeysForStepTypeLog (gs "newVendorStep")).length ≠ 1 := by decide

/-- C8 (amended): an unrecognized basic-auth type yields the empty
credential union plus exactly one warning and no panic; an unrecognized
step type yields the empty parameter key set silently — no warning at all
— and no panic. -/
theorem unknown_discriminator_amended :
    (∀ c : BasicAuthConfig, c.ty ∉ knownBasicAuthTypes →
        buildDatadogBasicAuth c = ({}, [warnUnrecognizedBasicAuth c.ty])) ∧
    (∀ t : GoString, t ∉ knownStepTypes → getParamsKeysForStepType t = []) ∧
    (∀ t : GoString, getParamsKeysForStepTypeLog t = []) := by
  refine ⟨?_, ?_, fun _ => rfl⟩
  · intro c h
    simp only [knownBasicAuthTypes, List.mem_cons, List.not_mem_nil, or_false,
      not_or] at h
    obtain ⟨h1, h2, h3, h4, h5, h6⟩ := h
    unfold buildDatadogBasicAuth
    rw [if_neg (fun hc => h1 hc.1), if_neg (fun hc => h2 hc.1), if_neg h3,
      if_neg h4, if_neg h5, if_neg h6]
  · intro t ht
    simp only [knownStepTypes, List.mem_cons, List.not_mem_nil, or_false,
      not_or] at ht
    obtain ⟨n1, n2, n3, n4, n5, n6, n7, n8, n9, n10, n11, n12, n13, n14, n15,
      n16, n17, n18, n19, n20, n21, n22, n23, n24⟩ := ht
    unfold getParamsKeysForStepType
    rw [if_neg n1, if_neg n2, if_neg n3, if_neg n4, if_neg n5, if_neg n6,
      if_neg n7, if_neg n8, if_neg n9, if_neg n10, if_neg n11, if_neg n12,
      if_neg n13, if_neg n14, if_neg n15, if_neg n16, if_neg n17, if_neg n18,
      if_neg n19, if_neg n20, if_neg n21, if_neg n22, if_neg n23, if_neg n24]

/-- Witness for C8 (amended) at the concrete unknown discriminators
`"token"` (basic auth) and `"futureStep"` (step type). -/
theorem unknown_discriminator_amended_witness :
    buildDatadogBasicAuth { ty := gs "token" } =
      ({}, [warnUnrecognizedBasicAuth (gs "token")]) ∧
    getParamsKeysForStepType (gs "futureStep") = [] :=
  ⟨unknown_discriminator_amended.1 { ty := gs "token" } (by decide),
   unknown_discriminator_amended.2.1 (gs "futureStep") (by decide)⟩

/-- C10: the implicit precondition of the `"web"` credential scheme —
`buildDatadogBasicAuth` with type `"web"` but an empty username falls
through every variant branch and returns the empty union together with
the unrecognized-type warning (the password is silently dropped); the web
variant is built only when the username is non-empty. -/
theorem web_requires_username (c : BasicAuthConfig) (h1 : c.ty = gs "web")
    (h2 : c.username = []) :
    buildDatadogBasicAuth c = ({}, [warnUnrecognizedBasicAuth (gs "web")]) := by
  obtain ⟨ty, un, pw, ak, sk, rg, sn, st, ta, au, ci, cs, ad, rs, sc, dm, ws⟩ := c
  simp only at h1 h2
  subst h1
  subst h2
  rfl

/-- Witness for C10 at a concrete web-typed config with empty username
and a non-empty password. -/
theorem web_requires_username_witness :
    buildDatadogBasicAuth { ty := gs "web", password := gs "pw" } =
      ({}, [warnUnrecognizedBasicAuth (gs "web")]) :=
  web_requires_username { ty := gs "web", password := gs "pw" } rfl rfl

/-- C9 counterexample: the claim says no translation function aborts, in
particular flatten calls where the model list is longer than the stored
configuration list.  With one model body file and an empty prior list,
`buildTerraformBodyFiles` hits `oldLocalBodyFiles[0]` out of range and
panics (`none`); likewise `buildTerraformConfigVariables` for a secure
non-global variable with no prior entry. -/
theorem no_abort_counterexample :
    buildTerraformBodyFiles [{ name := some (gs "f") }] [] = none ∧
    buildTerraformConfigVariables
      [{ ty := gs "text", name := gs "n", secure := some true }] [] = none := by decide

/-- Helper: with a present prior entry, the per-variable flatten body
never aborts. -/
theorem flattenOneConfigVariable_isSome (v : SyntheticsConfigVariable)
    (o : OldConfigVariable) : (flattenOneConfigVariable v (some o)).isSome = true := by
  unfold flattenOneConfigVariable
  split_ifs <;> rfl

/-- C9 (amended): the flatteners abort with an index-out-of-range panic
exactly when the model list outruns the prior configuration list (or an
old certificate entry has an empty nested list); whenever the prior lists
are long enough, every modelled flatten call returns a result and no
failure path aborts. -/
theorem no_abort_amended :
    (∀ (actual : List SyntheticsTestRequestBodyFile) (old : List LocalBodyFile),
        actual.length ≤ old.length →
        (buildTerraformBodyFiles actual old).isSome = true) ∧
    (∀ (vars : List SyntheticsConfigVariable) (old : List OldConfigVariable),
        vars.length ≤ old.length →
        (buildTerraformConfigVariables vars old).isSome = true) ∧
    (∀ cc : SyntheticsTestRequestCertificate,
        (buildTerraformRequestCertificates cc []).isSome = true) ∧
    (∀ (cc : SyntheticsTestRequestCertificate) (o : OldClientCert)
        (os : List OldClientCert),
        o.cert ≠ [] → o.key ≠ [] →
        (buildTerraformRequestCertificates cc (o :: os)).isSome = true) := by
  refine ⟨?_, ?_, fun cc => rfl, ?_⟩
  · intro actual
    induction actual with
    | nil => intro old hlen; rfl
    | cons f fs ih =>
        intro old hlen
        cases old with
        | nil => simp at hlen
        | cons o os =>
            have hrec := ih os (by simp at hlen; omega)
            unfold buildTerraformBodyFiles
            cases hb : buildTerraformBodyFiles fs os with
            | none => rw [hb] at hrec; simp at hrec
            | some rest => simp [hb]
  · intro vars
    induction vars with
    | nil => intro old hlen; rfl
    | cons v vs ih =>
        intro old hlen
        cases old with
        | nil => simp at hlen
        | cons o os =>
            have hone := flattenOneConfigVariable_isSome v o
            have hrec := ih os (by simp at hlen; omega)
            unfold buildTerraformConfigVariables
            cases h1 : flattenOneConfigVariable v (some o) with
            | none => rw [h1] at hone; simp at hone
            | some lv =>
                cases hb : buildTerraformConfigVariables vs os with
                | none => rw [hb] at hrec; simp at hrec
                | some rest => simp [List.head?, List.tail, h1, hb]
  · intro cc o os h1 h2
    unfold buildTerraformRequestCertificates
    rcases hc : o.cert with _ | ⟨oc, ocs⟩
    · exact absurd hc h1
    · rcases hk : o.key with _ | ⟨k1, k1s⟩
      · exact absurd hk h2
      · simp [hc, hk]

/-- Witness for C9 (amended) at concrete inputs with prior lists long
enough. -/
theorem no_abort_amended_witness :
    (buildTerraformBodyFiles [{ name := some (gs "f") }]
        [{ content := gs "data" }]).isSome = true ∧
    (buildTerraformConfigVariables
        [{ ty := gs "text", name := gs "n", secure := some true }]
        [{ exampleV := gs "ex" }]).isSome = true ∧
    (buildTerraformRequestCertificates {} [{ cert := [{}], key := [{}] }]).isSome = true :=
  ⟨no_abort_amended.1 _ _ (by decide),
   no_abort_amended.2.1 _ _ (by decide),
   no_abort_amended.2.2.2 {} { cert := [{}], key := [{}] } [] (by decide) (by decide)⟩

/-- C6: certificate content re-submission guard — for a client-certificate
configuration map with non-empty cert or key content, digest-shaped
content (`isCertHash`) leaves the model's `Content` unset, while raw
content is submitted verbatim. -/
theorem cert_content_guard (cfg : ClientCertConfig) (c : CertConfigItem)
    (cs : List CertConfigItem) (k : CertConfigItem) (ks : List CertConfigItem)
    (hc : cfg.cert = c :: cs) (hk : cfg.key = k :: ks) :
    (buildDatadogRequestCertificates cfg).isSome = true ∧
    (isCertHash c.content = true → builtCertContent cfg = some none) ∧
    (c.content ≠ [] → isCertHash c.content = false →
        builtCertContent cfg = some (some c.content)) ∧
    (isCertHash k.content = true → builtKeyContent cfg = some none) ∧
    (k.content ≠ [] → isCertHash k.content = false →
        builtKeyContent cfg = some (some k.content)) := by
  have hbuild : buildDatadogRequestCertificates cfg =
      some { cert := some (buildCertItem c), key := some (buildCertItem k) } := by
    unfold buildDatadogRequestCertificates
    rw [hc, hk]
  refine ⟨by rw [hbuild]; rfl, ?_, ?_, ?_, ?_⟩
  · intro hh
    unfold builtCertContent
    rw [hbuild]
    simp [buildCertItem, hh]
  · intro hne hh
    unfold builtCertContent
    rw [hbuild]
    simp [buildCertItem, hh, hne]
  · intro hh
    unfold builtKeyContent
    rw [hbuild]
    simp [buildCertItem, hh]
  · intro hne hh
    unfold builtKeyContent
    rw [hbuild]
    simp [buildCertItem, hh, hne]

/-- Witness for C6: a raw cert content is submitted verbatim, and a
digest-shaped (64 hex chars) key content is withheld. -/
theorem cert_content_guard_witness :
    builtCertContent { cert := [{ content := gs "RAWCERT" }], key := [{ content := gs "aaaaaaaaaaaaaaaaaaaaaaaaaaaaaaaaaaaaaaaaaaaaaaaaaaaaaaaaaaaaaaaa" }] } =
      some (some (gs "RAWCERT")) ∧
    builtKeyContent { cert := [{ content := gs "RAWCERT" }], key := [{ content := gs "aaaaaaaaaaaaaaaaaaaaaaaaaaaaaaaaaaaaaaaaaaaaaaaaaaaaaaaaaaaaaaaa" }] } =
      some none :=
  ⟨(cert_content_guard { cert := [{ content := gs "RAWCERT" }], key := [{ content := gs "aaaaaaaaaaaaaaaaaaaaaaaaaaaaaaaaaaaaaaaaaaaaaaaaaaaaaaaaaaaaaaaa" }] } { content := gs "RAWCERT" } [] { content := gs "aaaaaaaaaaaaaaaaaaaaaaaaaaaaaaaaaaaaaaaaaaaaaaaaaaaaaaaaaaaaaaaa" } [] rfl rfl).2.2.1 (by decide) (by decide),
   (cert_content_guard { cert := [{ content := gs "RAWCERT" }], key := [{ content := gs "aaaaaaaaaaaaaaaaaaaaaaaaaaaaaaaaaaaaaaaaaaaaaaaaaaaaaaaaaaaaaaaa" }] } { content := gs "RAWCERT" } [] { content := gs "aaaaaaaaaaaaaaaaaaaaaaaaaaaaaaaaaaaaaaaaaaaaaaaaaaaaaaaaaaaaaaaa" } [] rfl rfl).2.2.2.1 (by decide)⟩

/-- C7: secret carry-forward on flatten — a secure non-global config
variable at index i takes `example`/`pattern` from the prior configuration
entry at the same index; the certificate flattener takes cert/key content
only from the prior certificate entry (as a digest via
`getCertificateStateValue`), never from the model (the flattened contents
are invariant under any change of the model argument). -/
theorem secret_carry_forward :
    (∀ (vars : List SyntheticsConfigVariable) (old : List OldConfigVariable)
        (res : List LocalConfigVariable) (i : Nat) (v : SyntheticsConfigVariable)
        (o : OldConfigVariable) (lv : LocalConfigVariable),
        buildTerraformConfigVariables vars old = some res →
        vars.get? i = some v → old.get? i = some o → res.get? i = some lv →
        v.ty ≠ gs "global" → v.secure = some true →
        lv.exampleV = some o.exampleV ∧ lv.pattern = some o.pattern) ∧
    (∀ (cc cc2 : SyntheticsTestRequestCertificate) (old : List OldClientCert),
        (buildTerraformRequestCertificates cc old).map
            (fun l => (l.certContent, l.keyContent)) =
        (buildTerraformRequestCertificates cc2 old).map
            (fun l => (l.certContent, l.keyContent))) ∧
    (∀ (cc : SyntheticsTestRequestCertificate) (o : OldClientCert)
        (os : List OldClientCert) (oc : OldCertItem) (ocs : List OldCertItem)
        (k2 : OldCertItem) (ks : List OldCertItem) (r : LocalCertificate),
        o.cert = oc :: ocs → o.key = k2 :: ks →
        buildTerraformRequestCertificates cc (o :: os) = some r →
        r.certContent = oc.content.map getCertificateStateValue ∧
        r.keyContent = k2.content.map getCertificateStateValue) := by
  refine ⟨?_, ?_, ?_⟩
  · intro vars
    induction vars with
    | nil => intro old res i v o lv hbuild hv ho hlv hng hsec; simp at hv
    | cons v0 vs ih =>
        intro old res i v o lv hbuild hv ho hlv hng hsec
        unfold buildTerraformConfigVariables at hbuild
        cases h1 : flattenOneConfigVariable v0 old.head? with
        | none => rw [h1] at hbuild; exact absurd hbuild (by simp)
        | some lv0 =>
            rw [h1] at hbuild
            cases hb : buildTerraformConfigVariables vs old.tail with
            | none => rw [hb] at hbuild; exact absurd hbuild (by simp)
            | some rest =>
                rw [hb] at hbuild
                have hres : lv0 :: rest = res := by
                  simpa using hbuild
                subst hres
                cases i with
                | zero =>
                    have hv0 : v0 = v := by simpa using hv
                    have hlv0 : lv0 = lv := by simpa using hlv
                    subst hv0
                    subst hlv0
                    rcases old with _ | ⟨o0, os⟩
                    · simp at ho
                    · have ho0 : o0 = o := by simpa using ho
                      subst ho0
                      unfold flattenOneConfigVariable at h1
                      rw [if_pos hng, if_pos hsec] at h1
                      simp only [List.head?] at h1
                      injection h1 with h1a
                      rw [← h1a]
                      exact ⟨rfl, rfl⟩
                | succ n =>
                    have hv' : vs.get? n = some v := by simpa using hv
                    have hlv' : rest.get? n = some lv := by simpa using hlv
                    rcases old with _ | ⟨o0, os⟩
                    · simp at ho
                    · have ho' : os.get? n = some o := by simpa using ho
                      exact ih os rest n v o lv hb hv' ho' hlv' hng hsec
  · intro cc cc2 old
    unfold buildTerraformRequestCertificates
    rcases old with _ | ⟨o, os⟩
    · rfl
    · rcases hc : o.cert with _ | ⟨oc, ocs⟩ <;>
        rcases hk : o.key with _ | ⟨k1, k1s⟩ <;> simp [hc, hk]
  · intro cc o os oc ocs k2 ks r hcert hkey hbuild
    unfold buildTerraformRequestCertificates at hbuild
    simp only [hcert, hkey] at hbuild
    injection hbuild with hb1
    rw [← hb1]
    exact ⟨rfl, rfl⟩

/-- Witness for C7 at a concrete secure variable and prior entry, and a
concrete certificate flatten. -/
theorem secret_carry_forward_witness :
    (({ ty := some (gs "text"), name := some (gs "n"), secure := some true,
        exampleV := some (gs "ex"), pattern := some (gs "pat"),
        id := none : LocalConfigVariable }).exampleV = some (gs "ex") ∧
     ({ ty := some (gs "text"), name := some (gs "n"), secure := some true,
        exampleV := some (gs "ex"), pattern := some (gs "pat"),
        id := none : LocalConfigVariable }).pattern = some (gs "pat")) ∧
    (buildTerraformRequestCertificates {} [{ cert := [{}], key := [{}] }]).map
        (fun l => (l.certContent, l.keyContent)) =
      (buildTerraformRequestCertificates
          { cert := some { content := some (gs "MODELCONTENT") } }
          [{ cert := [{}], key := [{}] }]).map
        (fun l => (l.certContent, l.keyContent)) :=
  ⟨secret_carry_forward.1
      [{ ty := gs "text", name := gs "n", secure := some true }]
      [{ exampleV := gs "ex", pattern := gs "pat" }]
      [{ ty := some (gs "text"), name := some (gs "n"), secure := some true,
         exampleV := some (gs "ex"), pattern := some (gs "pat"), id := none }]
      0 _ _ _ (by decide) rfl rfl rfl (by decide) rfl,
   secret_carry_forward.2.1 {} _ _⟩

/-- Helper: every arm of the empty basic-auth union is nil, whatever the
selected tag. -/
theorem authSiblingsNone_empty (o : Option AuthVariant) :
    authSiblingsNone {} o = true := by
  rcases o with _ | t
  · rfl
  · cases t <;> rfl

/-- C1: Variant exclusivity — `buildDatadogBasicAuth` populates at most
the union arm selected by the `type` discriminator (every sibling arm is
nil, also when a guard fails and nothing is built), and
`buildDatadogAssertions` populates exactly the assertion variant selected
by the type/operator discriminators, all siblings nil. -/
theorem variant_exclusivity :
    (∀ c : BasicAuthConfig,
        authSiblingsNone (buildDatadogBasicAuth c).1 (authVariantFor c.ty) = true) ∧
    (∀ (m : AssertionConfig) (a : SyntheticsAssertion),
        buildDatadogAssertionsOne m = some a →
        exactlyVariant a (assertionVariantFor m) = true) := by
  constructor
  · intro c
    unfold buildDatadogBasicAuth
    by_cases h1 : c.ty = gs "web" ∧ c.username ≠ []
    · rw [if_pos h1]
      have e : authVariantFor c.ty = some .web := by rw [h1.1]; decide
      rw [e]; rfl
    · rw [if_neg h1]
      by_cases h2 : c.ty = gs "sigv4" ∧ c.accessKey ≠ [] ∧ c.secretKey ≠ []
      · rw [if_pos h2]
        have e : authVariantFor c.ty = some .sigv4 := by rw [h2.1]; decide
        rw [e]; rfl
      · rw [if_neg h2]
        by_cases h3 : c.ty = gs "ntlm"
        · rw [if_pos h3]
          have e : authVariantFor c.ty = some .ntlm := by rw [h3]; decide
          rw [e]; rfl
        · rw [if_neg h3]
          by_cases h4 : c.ty = gs "oauth-client"
          · rw [if_pos h4]
            have e : authVariantFor c.ty = some .oauthClient := by rw [h4]; decide
            rw [e]; rfl
          · rw [if_neg h4]
            by_cases h5 : c.ty = gs "oauth-rop"
            · rw [if_pos h5]
              have e : authVariantFor c.ty = some .oauthROP := by rw [h5]; decide
              rw [e]; rfl
            · rw [if_neg h5]
              by_cases h6 : c.ty = gs "digest"
              · rw [if_pos h6]
                have e : authVariantFor c.ty = some .digest := by rw [h6]; decide
                rw [e]; rfl
              · rw [if_neg h6]
                exact authSiblingsNone_empty _
  · intro m a h
    unfold buildDatadogAssertionsOne at h
    unfold assertionVariantFor
    by_cases hjs : m.ty = gs "javascript"
    · rw [if_pos hjs] at h
      rw [if_pos hjs]
      injection h with h2
      rw [← h2]
      rfl
    · rw [if_neg hjs] at h
      rw [if_neg hjs]
      cases hop : m.operator with
      | none => rw [hop] at h; exact absurd h (by simp)
      | some op =>
          rw [hop] at h
          simp only at h ⊢
          by_cases e1 : op = gs "validatesJSONSchema"
          · rw [if_pos e1] at h ⊢
            injection h with h2
            rw [← h2]
            rfl
          · rw [if_neg e1] at h ⊢
            by_cases e2 : op = gs "validatesJSONPath"
            · rw [if_pos e2] at h ⊢
              injection h with h2
              rw [← h2]
              rfl
            · rw [if_neg e2] at h ⊢
              by_cases e3 : op = gs "validatesXPath"
              · rw [if_pos e3] at h ⊢
                injection h with h2
                rw [← h2]
                rfl
              · rw [if_neg e3] at h ⊢
                injection h with h2
                rw [← h2]
                rfl

/-- Witness for C1 at a concrete NTLM credential config and a concrete
status-code assertion. -/
theorem variant_exclusivity_witness :
    authSiblingsNone (buildDatadogBasicAuth { ty := gs "ntlm" }).1
      (authVariantFor (gs "ntlm")) = true ∧
    exactlyVariant
      { target := some { operator := gs "is", ty := gs "statusCode", property := none, target := some (.int 200), timingsScope := none } }
      (assertionVariantFor { ty := gs "statusCode", operator := some (gs "is"), target := some (gs "200") }) = true :=
  ⟨variant_exclusivity.1 { ty := gs "ntlm" },
   variant_exclusivity.2
     { ty := gs "statusCode", operator := some (gs "is"), target := some (gs "200") }
     { target := some { operator := gs "is", ty := gs "statusCode", property := none, target := some (.int 200), timingsScope := none } }
     (by decide)⟩

/-- Helper: a template match implies the string contains an opening brace
byte. -/
theorem hasTemplate_mem {v : GoString} (h : hasTemplate v = true) : 123 ∈ v := by
  induction v with
  | nil => simp [hasTemplate] at h
  | cons b rest ih =>
      simp only [hasTemplate, Bool.or_eq_true] at h
      by_cases hb : b = 123
      · subst hb; exact List.mem_cons_self 123 rest
      · rcases h with h | h
        · rw [if_neg hb] at h; exact absurd h (by simp)
        · exact List.mem_cons_of_mem _ (ih h)

/-- Helper: a brace byte is not a digit, so the digit scan stops before
consuming the whole string. -/
theorem takeDigits_rest_ne_nil {s : GoString} (h : 123 ∈ s) :
    (takeDigits s).2.2 ≠ [] := by
  induction s with
  | nil => simp at h
  | cons b rest ih =>
      by_cases hd : 48 ≤ b ∧ b ≤ 57
      · have hb : b ≠ 123 := by omega
        have hmem : (123 : Nat) ∈ rest := by
          rcases List.mem_cons.mp h with h2 | h2
          · exact absurd h2.symm hb
          · exact h2
        simpa [takeDigits, hd] using ih hmem
      · simp [takeDigits, hd]

/-- Helper: the sign parser drops at most one leading sign byte, which is
not a brace, so the brace byte survives. -/
theorem parseSign_mem {v : GoString} (h : 123 ∈ v) : 123 ∈ (parseSign v).2 := by
  rcases v with _ | ⟨b, rest⟩
  · simp at h
  · simp only [parseSign]
    by_cases h43 : b = 43
    · rw [if_pos h43]
      rcases List.mem_cons.mp h with h2 | h2
      · rw [h43] at h2; exact absurd h2 (by decide)
      · exact h2
    · rw [if_neg h43]
      by_cases h45 : b = 45
      · rw [if_pos h45]
        rcases List.mem_cons.mp h with h2 | h2
        · rw [h45] at h2; exact absurd h2 (by decide)
        · exact h2
      · rw [if_neg h45]; exact h

/-- Helper: `strconv.Atoi` reports an error on any string containing a
brace byte — in particular on every template value. -/
theorem atoiGo_err_of_brace (v : GoString) (h : 123 ∈ v) : (atoiGo v).2 = false := by
  have hmem := parseSign_mem h
  have hne : (parseSign v).2 ≠ [] := by
    intro he
    rw [he] at hmem
    simp at hmem
  have hrest := takeDigits_rest_ne_nil hmem
  simp only [atoiGo]
  rw [if_neg hne, if_pos hrest]

/-- C2 counterexample: the claim extends the template passthrough and the
"no value set" leniency to the plain assertion target under
`isTargetOfTypeInt` pairs.  For type `responseTime`, operator `lessThan`
and the template target `"{{ timestamp }}"`, the plain branch runs
`strconv.Atoi`, ignores its error, and sets the integer 0 — the template
is NOT passed through as a string and the target is NOT left unset. -/
theorem numeric_passthrough_counterexample :
    buildDatadogAssertionsOne
      { ty := gs "responseTime", operator := some (gs "lessThan"), target := some (gs "\x7b\x7b timestamp \x7d\x7d") } =
      some { target := some { operator := gs "lessThan", ty := gs "responseTime", property := none, target := some (.int 0), timingsScope := none } } ∧
    TargetValue.int 0 ≠ TargetValue.str (gs "\x7b\x7b timestamp \x7d\x7d") ∧
    hasTemplate (gs "\x7b\x7b timestamp \x7d\x7d") = true := by decide

/-- Helper: the decimal literal `"42"` parses to the exact rational 42. -/
theorem parseFloat_gs42 : parseFloat (gs "42") = some 42 := by
  unfold parseFloat
  rw [show parseSign (gs "42") = (false, gs "42") from by decide]
  simp only
  rw [show takeDigits (gs "42") = (42, 2, []) from by decide]
  norm_num

/-- C2 (amended): the numeric passthrough exception holds for the
JSON-path and XPath `targetvalue` cases — a `{{ }}` template value is kept
as a string under `lessThan`/`moreThan`, `"42"` becomes the number 42, and
a non-numeric non-template value sets nothing — while the plain assertion
target under an `isTargetOfTypeInt` pair always sets the integer
`strconv.Atoi` result with the error ignored: `"42"` becomes 42, and any
non-numeric value (templates included, which always fail `Atoi`) becomes
the integer 0. -/
theorem numeric_passthrough_amended :
    (∀ op v, (op = gs "lessThan" ∨ op = gs "moreThan") → hasTemplate v = true →
        jsonPathTargetValue op v = some (.str v) ∧
        xPathTargetValue op v = some (.str v)) ∧
    (∀ op v q, (op = gs "lessThan" ∨ op = gs "moreThan") → hasTemplate v = false →
        parseFloat v = some q →
        jsonPathTargetValue op v = some (.float q) ∧
        xPathTargetValue op v = some (.float q)) ∧
    (∀ op v, (op = gs "lessThan" ∨ op = gs "moreThan") → hasTemplate v = false →
        parseFloat v = none →
        jsonPathTargetValue op v = none ∧ xPathTargetValue op v = none) ∧
    (∀ ty op v, isTargetOfTypeInt ty op = true →
        plainTargetValue ty op v = .int (atoiGo v).1) ∧
    (parseFloat (gs "42") = some 42 ∧ atoiGo (gs "42") = (42, true)) ∧
    (∀ v, hasTemplate v = true → (atoiGo v).2 = false) := by
  refine ⟨?_, ?_, ?_, ?_, ⟨parseFloat_gs42, by decide⟩,
    fun v h => atoiGo_err_of_brace v (hasTemplate_mem h)⟩
  · intro op v hop ht
    unfold jsonPathTargetValue xPathTargetValue numericTargetValue
    rcases hop with rfl | rfl
    · rw [if_neg (by decide : ¬(gs "lessThan" = gs "isUndefined")),
        if_pos (Or.inl rfl : gs "lessThan" = gs "lessThan" ∨ gs "lessThan" = gs "moreThan"),
        if_pos ht]
      exact ⟨rfl, rfl⟩
    · rw [if_neg (by decide : ¬(gs "moreThan" = gs "isUndefined")),
        if_pos (Or.inr rfl : gs "moreThan" = gs "lessThan" ∨ gs "moreThan" = gs "moreThan"),
        if_pos ht]
      exact ⟨rfl, rfl⟩
  · intro op v q hop ht hpf
    have hnt : ¬(hasTemplate v = true) := by simp [ht]
    unfold jsonPathTargetValue xPathTargetValue numericTargetValue
    rcases hop with rfl | rfl
    · rw [if_neg (by decide : ¬(gs "lessThan" = gs "isUndefined")),
        if_pos (Or.inl rfl : gs "lessThan" = gs "lessThan" ∨ gs "lessThan" = gs "moreThan"),
        if_neg hnt, hpf]
      exact ⟨rfl, rfl⟩
    · rw [if_neg (by decide : ¬(gs "moreThan" = gs "isUndefined")),
        if_pos (Or.inr rfl : gs "moreThan" = gs "lessThan" ∨ gs "moreThan" = gs "moreThan"),
        if_neg hnt, hpf]
      exact ⟨rfl, rfl⟩
  · intro op v hop ht hpf
    have hnt : ¬(hasTemplate v = true) := by simp [ht]
    unfold jsonPathTargetValue xPathTargetValue numericTargetValue
    rcases hop with rfl | rfl
    · rw [if_neg (by decide : ¬(gs "lessThan" = gs "isUndefined")),
        if_pos (Or.inl rfl : gs "lessThan" = gs "lessThan" ∨ gs "lessThan" = gs "moreThan"),
        if_neg hnt, hpf]
      exact ⟨rfl, rfl⟩
    · rw [if_neg (by decide : ¬(gs "moreThan" = gs "isUndefined")),
        if_pos (Or.inr rfl : gs "moreThan" = gs "lessThan" ∨ gs "moreThan" = gs "moreThan"),
        if_neg hnt, hpf]
      exact ⟨rfl, rfl⟩
  · intro ty op v hint
    unfold plainTargetValue
    rw [if_pos hint]

/-- Witness for C2 (amended) at concrete values: template passthrough,
numeric and non-numeric targets, and the plain integer branch. -/
theorem numeric_passthrough_amended_witness :
    jsonPathTargetValue (gs "lessThan") (gs "\x7b\x7b timestamp \x7d\x7d") = some (.str (gs "\x7b\x7b timestamp \x7d\x7d")) ∧
    jsonPathTargetValue (gs "lessThan") (gs "42") = some (.float 42) ∧
    xPathTargetValue (gs "moreThan") (gs "abc") = none ∧
    plainTargetValue (gs "statusCode") (gs "is") (gs "200") = .int 200 ∧
    (atoiGo (gs "\x7b\x7b timestamp \x7d\x7d")).2 = false :=
  ⟨(numeric_passthrough_amended.1 _ _ (Or.inl rfl) (by decide)).1,
   (numeric_passthrough_amended.2.1 _ _ 42 (Or.inl rfl) (by decide) parseFloat_gs42).1,
   (numeric_passthrough_amended.2.2.1 _ _ (Or.inr rfl) (by decide) (by decide)).2,
   (numeric_passthrough_amended.2.2.2.1 _ _ (gs "200") (by decide)).trans (by decide),
   numeric_passthrough_amended.2.2.2.2.2 _ (by decide)⟩
